import Mathlib

set_option maxRecDepth 20000
set_option maxHeartbeats 1000000

/-!
Shallow embedding of the Tuserbot forwarding pipeline.

The rate limiter below embeds the class RateLimiter of src/utils.py.
Clock values of time.time are modelled by integers, chat identifiers by
integers, the deque counters by lists ordered oldest first, and the dict
fields by total functions with the dict-absent case encoded by Option or
by a default value.  The smoothed success rate is an exact rational; its
update uses the helpers qmul and qadd, proved below to agree with
rational multiplication and addition, so that concrete states evaluate
inside the kernel.
-/

namespace Tuserbot

/-- Rational multiplication computed on numerators and denominators. -/
def qmul (a b : ℚ) : ℚ := mkRat (a.num * b.num) (a.den * b.den)

/-- Rational addition computed on numerators and denominators. -/
def qadd (a b : ℚ) : ℚ := mkRat (a.num * (b.den : ℤ) + b.num * (a.den : ℤ)) (a.den * b.den)

theorem qmul_eq (a b : ℚ) : qmul a b = a * b := by
  have ha : ((a.den : ℚ)) ≠ 0 := by exact_mod_cast a.den_nz
  have hb : ((b.den : ℚ)) ≠ 0 := by exact_mod_cast b.den_nz
  have h1 : (a.num : ℚ) = a * a.den := (div_eq_iff ha).mp (Rat.num_div_den a)
  have h2 : (b.num : ℚ) = b * b.den := (div_eq_iff hb).mp (Rat.num_div_den b)
  unfold qmul
  rw [Rat.mkRat_eq_div]
  push_cast
  rw [div_eq_iff (mul_ne_zero ha hb), h1, h2]
  ring

theorem qadd_eq (a b : ℚ) : qadd a b = a + b := by
  have ha : ((a.den : ℚ)) ≠ 0 := by exact_mod_cast a.den_nz
  have hb : ((b.den : ℚ)) ≠ 0 := by exact_mod_cast b.den_nz
  have h1 : (a.num : ℚ) = a * a.den := (div_eq_iff ha).mp (Rat.num_div_den a)
  have h2 : (b.num : ℚ) = b * b.den := (div_eq_iff hb).mp (Rat.num_div_den b)
  unfold qadd
  rw [Rat.mkRat_eq_div]
  push_cast
  rw [div_eq_iff (mul_ne_zero ha hb), h1, h2]
  ring

/-- One recorded send event, as passed to record_message of src/utils.py:
the destination chat, the clock value at the call, and the success flag. -/
structure SendEvent where
  chat : ℤ
  time : ℤ
  success : Bool
deriving DecidableEq

/-- State of class RateLimiter (src/utils.py lines 256 to 277). -/
structure RateLimiter where
  global_limit : ℕ
  chat_limit : ℕ
  window_size : ℤ
  global_counter : List ℤ
  chat_counters : ℤ → List ℤ
  flood_wait_until : ℤ → Option ℤ
  permanent_bans : ℤ → Bool
  success_rates : ℤ → Option ℚ
  error_counts : ℤ → ℕ
  total_messages_sent : ℕ
  total_messages_blocked : ℕ
  total_flood_waits : ℕ

/-- The state built by RateLimiter.__init__ (src/utils.py lines 259 to 277). -/
def RateLimiter.init : RateLimiter where
  global_limit := 100
  chat_limit := 30
  window_size := 60
  global_counter := []
  chat_counters := fun _ => []
  flood_wait_until := fun _ => none
  permanent_bans := fun _ => false
  success_rates := fun _ => none
  error_counts := fun _ => 0
  total_messages_sent := 0
  total_messages_blocked := 0
  total_flood_waits := 0

/-- Outcome of can_send, instrumented with which gate produced a denial.
The source returns a plain Bool; allow maps to True and every deny
constructor to False. -/
inductive Decision where
  | allow
  | denyBan
  | denyFlood
  | denyGlobal
  | denyChat
deriving DecidableEq

/-- Bool returned by can_send for a given instrumented decision. -/
def Decision.toBool : Decision → Bool
  | .allow => true
  | _ => false

/-- The popleft loop of _clean_old_entries on one deque (src/utils.py
lines 366 to 373): entries strictly older than the cutoff are removed
from the front until the head is recent enough. -/
def cleanList (cutoff : ℤ) (l : List ℤ) : List ℤ :=
  l.dropWhile (fun x => decide (x < cutoff))

/-- _clean_old_entries (src/utils.py lines 361 to 377): purge entries older
than the window from the global counter and from every chat counter. The
deletion of empty chat deques is invisible in the total-function encoding. -/
def clean_old_entries (s : RateLimiter) (now : ℤ) : RateLimiter :=
  { s with
    global_counter := cleanList (now - s.window_size) s.global_counter
    chat_counters := fun c => cleanList (now - s.window_size) (s.chat_counters c) }

/-- _get_adaptive_limit (src/utils.py lines 347 to 359). The Python
expressions int(base_limit * 0.3) and int(base_limit * 0.6) evaluate to 9
and 18 at the configured base of 30, which the natural-number products
base * 3 / 10 and base * 6 / 10 reproduce. -/
def get_adaptive_limit (s : RateLimiter) (chat : ℤ) : ℕ :=
  let base := s.chat_limit
  let success_rate := (s.success_rates chat).getD 1
  let error_count := s.error_counts chat
  if success_rate < mkRat 1 2 ∨ error_count > 10 then
    max 5 (base * 3 / 10)
  else if success_rate < mkRat 4 5 ∨ error_count > 5 then
    max 10 (base * 6 / 10)
  else
    base

/-- The tail of can_send after the ban and flood gates (src/utils.py lines
294 to 310): clean old entries, compute the adaptive limit, then test the
global window and the per-chat window in that order. -/
def windowCheck (s : RateLimiter) (chat : ℤ) (now : ℤ) : Decision × RateLimiter :=
  let s1 := clean_old_entries s now
  let lim := get_adaptive_limit s1 chat
  if s1.global_counter.length ≥ s1.global_limit then
    (Decision.denyGlobal, { s1 with total_messages_blocked := s1.total_messages_blocked + 1 })
  else if (s1.chat_counters chat).length ≥ lim then
    (Decision.denyChat, { s1 with total_messages_blocked := s1.total_messages_blocked + 1 })
  else
    (Decision.allow, s1)

/-- can_send (src/utils.py lines 279 to 310), instrumented with the gate
that fired: permanent-ban gate, then flood-wait gate (an expired entry is
deleted before falling through), then the window gates. -/
def canSendDec (s : RateLimiter) (chat : ℤ) (now : ℤ) : Decision × RateLimiter :=
  if s.permanent_bans chat then
    (Decision.denyBan, s)
  else
    match s.flood_wait_until chat with
    | some u =>
        if now < u then
          (Decision.denyFlood, s)
        else
          windowCheck
            { s with flood_wait_until := fun c => if c = chat then none else s.flood_wait_until c }
            chat now
    | none => windowCheck s chat now

/-- can_send exactly as the source exposes it: the Bool verdict plus the
mutated state. -/
def can_send (s : RateLimiter) (chat : ℤ) (now : ℤ) : Bool × RateLimiter :=
  ((canSendDec s chat now).1.toBool, (canSendDec s chat now).2)

/-- record_message (src/utils.py lines 312 to 327): append the clock value
to the global counter and to the chat counter, bump the sent total, update
the smoothed success rate by rate * 0.9 + (0.1 on success, 0 on failure),
and on failure bump the error count. -/
def record_message (s : RateLimiter) (chat : ℤ) (success : Bool) (now : ℤ) : RateLimiter :=
  { s with
    global_counter := s.global_counter ++ [now]
    chat_counters := fun c => if c = chat then s.chat_counters c ++ [now] else s.chat_counters c
    total_messages_sent := s.total_messages_sent + 1
    success_rates := fun c =>
      if c = chat then
        some (match s.success_rates chat with
          | some r => qadd (qmul r (mkRat 9 10)) (if success then mkRat 1 10 else 0)
          | none => if success then 1 else 0)
      else s.success_rates c
    error_counts := fun c =>
      if c = chat ∧ success = false then s.error_counts c + 1 else s.error_counts c }

/-- set_flood_wait (src/utils.py lines 329 to 333): install a cooldown
ending wait seconds after the current clock value. -/
def set_flood_wait (s : RateLimiter) (chat : ℤ) (wait : ℤ) (now : ℤ) : RateLimiter :=
  { s with
    flood_wait_until := fun c => if c = chat then some (now + wait) else s.flood_wait_until c
    total_flood_waits := s.total_flood_waits + 1 }

/-- A sequence of record_message calls, oldest first. -/
def recordAll (s : RateLimiter) (l : List SendEvent) : RateLimiter :=
  l.foldl (fun acc e => record_message acc e.chat e.success e.time) s

example : (can_send RateLimiter.init 5 0).1 = true := by decide

example : get_adaptive_limit RateLimiter.init 5 = 30 := by decide

example :
    (can_send (set_flood_wait RateLimiter.init 5 10 0) 5 3).1 = false := by decide

/-!
The forwarding pipeline around the rate limiter: forwarding rules as the
task store returns them, the bounded message queue, the ingestion handler
and one iteration of the worker loop (src/main.py), together with the
retry decorator of src/utils.py lines 30 to 54.
-/

/-- A row of the tasks table as returned by Database.get_tasks_by_source
(src/database.py lines 207 to 223), restricted to the columns the
pipeline reads. -/
structure Rule where
  id : ℤ
  source_id : ℤ
  destination_id : ℤ
  is_active : Bool
deriving DecidableEq

/-- A queue entry as built by _handle_incoming_message (src/main.py lines
482 to 487): the message reference, the matched task row, and the enqueue
clock value. -/
structure DeliveryItem where
  msg : ℤ
  rule : Rule
  timestamp : ℤ
deriving DecidableEq

/-- The SQL of get_tasks_by_source: rows whose source matches and whose
is_active column is TRUE. -/
def get_tasks_by_source (store : List Rule) (src : ℤ) : List Rule :=
  store.filter (fun r => r.source_id = src ∧ r.is_active = true)

/-- Database.update_task_status (src/database.py lines 226 to 248): set
the is_active column of the matching row. -/
def update_task_status (store : List Rule) (tid : ℤ) (active : Bool) : List Rule :=
  store.map (fun r => if r.id = tid then { r with is_active := active } else r)

/-- The for loop of _handle_incoming_message (src/main.py lines 479 to
494): each active task enqueues one item while the queue size is below
500; on a full queue the item is dropped and one operator notification
is counted. -/
def enqueue_tasks (msg now : ℤ) : List Rule → List DeliveryItem × ℕ → List DeliveryItem × ℕ
  | [], acc => acc
  | task :: rest, acc =>
      enqueue_tasks msg now rest
        (if task.is_active then
          (if acc.1.length < 500 then (acc.1 ++ [⟨msg, task, now⟩], acc.2)
           else (acc.1, acc.2 + 1))
         else acc)

/-- _handle_incoming_message (src/main.py lines 470 to 498): when the
running flag is cleared the message is ignored; otherwise the matching
tasks are fetched and the enqueue loop runs.  Returns the queue and the
number of queue-full notifications. -/
def handle_incoming_message (running : Bool) (queue : List DeliveryItem)
    (store : List Rule) (src : ℤ) (msg : ℤ) (now : ℤ) : List DeliveryItem × ℕ :=
  if running = false then
    (queue, 0)
  else
    enqueue_tasks msg now (get_tasks_by_source store src) (queue, 0)

/-- Classified outcome of one raw send attempt inside _forward_message
(src/main.py lines 537 to 606): success, a FloodWait carrying its wait
duration, a permission error (ChannelPrivate, ChatAdminRequired or
UserNotParticipant), or any other exception. -/
inductive SendOutcome where
  | ok
  | floodWait (wait : ℤ)
  | permission
  | otherErr
deriving DecidableEq

/-- Result of one execution of the _forward_message body.  The field
result is ok b when the function returns b and error when the exception
propagates to the retry decorator.  The fields collect the side effects:
the rate limiter after set_flood_wait, the task store after
update_task_status, operator notifications, sleeps performed, and the
ids deactivated by update_task_status. -/
structure AttemptResult where
  result : Except Unit Bool
  rl : RateLimiter
  store : List Rule
  notices : ℕ
  sleeps : List ℤ
  deacts : List ℤ

/-- One execution of the _forward_message body (src/main.py lines 537 to
606): success returns True; FloodWait installs the cooldown, sleeps the
error wait and re-raises; a permission error deactivates the task row,
notifies the operator and returns False; any other error re-raises. -/
def forward_attempt (rl : RateLimiter) (store : List Rule) (task : Rule)
    (outcome : SendOutcome) (now : ℤ) : AttemptResult :=
  match outcome with
  | .ok => ⟨.ok true, rl, store, 0, [], []⟩
  | .floodWait w => ⟨.error (), set_flood_wait rl task.destination_id w now, store, 0, [w], []⟩
  | .permission => ⟨.ok false, rl, update_task_status store task.id false, 1, [], [task.id]⟩
  | .otherErr => ⟨.error (), rl, store, 0, [], []⟩

/-- Result of _forward_message under the retry_on_failure decorator:
outcome, accumulated side effects, and the number of attempts made. -/
structure RetryResult where
  result : Except Unit Bool
  rl : RateLimiter
  store : List Rule
  notices : ℕ
  sleeps : List ℤ
  deacts : List ℤ
  attempts : ℕ

/-- The loop of retry_on_failure (src/utils.py lines 30 to 54) with
max_retries 3 and delay 2 as used on _forward_message: a normal return
stops the loop; an exception on attempt 3 re-raises; otherwise the
decorator sleeps delay * 2 ^ attempt and tries again.  The outcomes
function gives the classified result of the raw send on each attempt. -/
def retryLoop (task : Rule) (outcomes : ℕ → SendOutcome) (now : ℤ)
    (attempt : ℕ) (fuel : ℕ) (rl : RateLimiter) (store : List Rule)
    (sleeps : List ℤ) (deacts : List ℤ) (notices : ℕ) : RetryResult :=
  match fuel with
  | 0 => ⟨.error (), rl, store, notices, sleeps, deacts, attempt⟩
  | fuel + 1 =>
      let a := forward_attempt rl store task (outcomes attempt) now
      match a.result with
      | .ok b =>
          ⟨.ok b, a.rl, a.store, notices + a.notices, sleeps ++ a.sleeps,
            deacts ++ a.deacts, attempt + 1⟩
      | .error () =>
          if attempt = 3 then
            ⟨.error (), a.rl, a.store, notices + a.notices, sleeps ++ a.sleeps,
              deacts ++ a.deacts, attempt + 1⟩
          else
            retryLoop task outcomes now (attempt + 1) fuel a.rl a.store
              (sleeps ++ a.sleeps ++ [2 * ((2 ^ attempt : ℕ) : ℤ)])
              (deacts ++ a.deacts) (notices + a.notices)

/-- _forward_message as called by the worker: the decorated function with
max_retries 3, so at most four attempts in total. -/
def forward_message (rl : RateLimiter) (store : List Rule) (task : Rule)
    (outcomes : ℕ → SendOutcome) (now : ℤ) : RetryResult :=
  retryLoop task outcomes now 0 4 rl store [] [] 0

/-- Worker-visible state threaded through one iteration of
_process_message_queue (src/main.py lines 500 to 535). -/
structure WorkerState where
  rl : RateLimiter
  queue : List DeliveryItem
  store : List Rule
  messages_forwarded : ℕ
  errors : ℕ
  notices : ℕ
  deacts : List ℤ

/-- What one worker iteration did, for stating the claims. -/
inductive StepAction where
  | idle
  | requeued (item : DeliveryItem) (sleptFor : ℤ)
  | delivered (taskId : ℤ)
  | failed (taskId : ℤ)
deriving DecidableEq

/-- One iteration of the worker loop _process_message_queue (src/main.py
lines 500 to 535): dequeue with a timeout (idle when empty), consult
can_send; on deny sleep one second and put the same item back at the end
of the queue; on allow run _forward_message, record the message on
success, count an error on a False return or on a propagated exception
(the item is dropped either way). -/
def process_message_queue_step (w : WorkerState) (outcomes : ℕ → SendOutcome)
    (now : ℤ) : WorkerState × StepAction :=
  match w.queue with
  | [] => (w, .idle)
  | item :: rest =>
      if (can_send w.rl item.rule.destination_id now).1 = false then
        ({ w with rl := (can_send w.rl item.rule.destination_id now).2,
                  queue := rest ++ [item] },
          .requeued item 1)
      else
        let r := forward_message (can_send w.rl item.rule.destination_id now).2
          w.store item.rule outcomes now
        match r.result with
        | .ok true =>
            ({ w with rl := record_message r.rl item.rule.destination_id true now,
                      store := r.store, queue := rest,
                      messages_forwarded := w.messages_forwarded + 1,
                      notices := w.notices + r.notices,
                      deacts := w.deacts ++ r.deacts },
              .delivered item.rule.id)
        | .ok false =>
            ({ w with rl := r.rl, store := r.store, queue := rest,
                      errors := w.errors + 1,
                      notices := w.notices + r.notices,
                      deacts := w.deacts ++ r.deacts },
              .failed item.rule.id)
        | .error () =>
            ({ w with rl := r.rl, store := r.store, queue := rest,
                      errors := w.errors + 1,
                      notices := w.notices + r.notices,
                      deacts := w.deacts ++ r.deacts },
              .failed item.rule.id)

/-!
Resource monitor and supervisor (src/main.py lines 608 to 670).  Memory
readings stay rational (megabytes); the drain loop of _graceful_restart
is modelled against a queue-size trace indexed by elapsed seconds.
-/

/-- What one pass of the _monitor_resources loop decides to do. -/
inductive MonitorAction where
  | restartTriggered
  | gcPass
  | noAction
deriving DecidableEq

/-- The threshold branches of _monitor_resources (src/main.py lines 612
to 627): above 450 MB trigger the graceful restart, above 400 MB force a
garbage collection pass, otherwise do nothing. -/
def monitor_check (memory_usage : ℚ) : MonitorAction :=
  if memory_usage > 450 then .restartTriggered
  else if memory_usage > 400 then .gcPass
  else .noAction

/-- One pass of _monitor_resources together with its effect on the
running flag: only the restart branch touches it (inside
_graceful_restart), the other branches leave ingestion as it was. -/
def monitor_step (memory_usage : ℚ) (running : Bool) : MonitorAction × Bool :=
  match monitor_check memory_usage with
  | .restartTriggered => (.restartTriggered, false)
  | a => (a, running)

/-- The drain loop of _graceful_restart (src/main.py lines 644 to 647):
while the queue is nonempty and fewer than 30 seconds have passed, sleep
one second.  qsize gives the queue size observed after w seconds; the
fuel argument only bounds the recursion and is always sufficient. -/
def drainLoop (qsize : ℕ → ℕ) (w : ℕ) (fuel : ℕ) : ℕ :=
  match fuel with
  | 0 => w
  | fuel + 1 => if 0 < qsize w ∧ w < 30 then drainLoop qsize (w + 1) fuel else w

/-- Seconds spent waiting for the queue to drain, starting from zero. -/
def drain_wait (qsize : ℕ → ℕ) : ℕ := drainLoop qsize 0 31

/-- The shutdown actions _graceful_restart performs after the drain wait
(src/main.py lines 649 to 665), in source order. -/
inductive ShutdownEvent where
  | cancelWorkers
  | closeDb
  | stopClients
  | exitProcess
deriving DecidableEq

/-- Result of _graceful_restart (src/main.py lines 635 to 670): the
running flag is cleared first, then the drain wait runs, then the
straight-line shutdown sequence ends in sys.exit. -/
structure RestartResult where
  running : Bool
  waited : ℕ
  events : List ShutdownEvent

/-- _graceful_restart against a queue-size trace. -/
def graceful_restart (qsize : ℕ → ℕ) : RestartResult :=
  ⟨false, drain_wait qsize,
    [.cancelWorkers, .closeDb, .stopClients, .exitProcess]⟩

/-!
Helper lemmas about the rate limiter.
-/

theorem recordAll_cons (s : RateLimiter) (e : SendEvent) (l : List SendEvent) :
    recordAll s (e :: l) = recordAll (record_message s e.chat e.success e.time) l := rfl

theorem recordAll_permanent_bans (l : List SendEvent) :
    ∀ s : RateLimiter, (recordAll s l).permanent_bans = s.permanent_bans := by
  induction l with
  | nil => intro s; rfl
  | cons e l ih => intro s; rw [recordAll_cons, ih]; rfl

theorem recordAll_flood_wait_until (l : List SendEvent) :
    ∀ s : RateLimiter, (recordAll s l).flood_wait_until = s.flood_wait_until := by
  induction l with
  | nil => intro s; rfl
  | cons e l ih => intro s; rw [recordAll_cons, ih]; rfl

theorem recordAll_global_limit (l : List SendEvent) :
    ∀ s : RateLimiter, (recordAll s l).global_limit = s.global_limit := by
  induction l with
  | nil => intro s; rfl
  | cons e l ih => intro s; rw [recordAll_cons, ih]; rfl

theorem recordAll_window_size (l : List SendEvent) :
    ∀ s : RateLimiter, (recordAll s l).window_size = s.window_size := by
  induction l with
  | nil => intro s; rfl
  | cons e l ih => intro s; rw [recordAll_cons, ih]; rfl

theorem recordAll_global_counter (l : List SendEvent) :
    ∀ s : RateLimiter,
      (recordAll s l).global_counter = s.global_counter ++ l.map (fun e => e.time) := by
  induction l with
  | nil => intro s; simp [recordAll]
  | cons e l ih =>
      intro s
      rw [recordAll_cons, ih]
      simp [record_message]

theorem cleanList_eq_self (cutoff : ℤ) (l : List ℤ) (h : ∀ t ∈ l, cutoff ≤ t) :
    cleanList cutoff l = l := by
  cases l with
  | nil => rfl
  | cons a as =>
      have ha : ¬ (a < cutoff) := not_lt.mpr (h a (by simp))
      simp [cleanList, List.dropWhile_cons, ha]

/-- Claim C1: with the default global limit of 100 per 60 second window,
after 100 recorded sends to pairwise distinct destinations all within the
trailing 60 seconds, the next can_send call is denied for every
destination, and the denial fires at the global gate, before the
per-destination window, regardless of per-destination counts, success
rates or error counts. -/
theorem global_gate_after_hundred (sends : List SendEvent) (now : ℤ)
    (hlen : sends.length = 100)
    (hdistinct : sends.Pairwise (fun a b => a.chat ≠ b.chat))
    (hwin : ∀ e ∈ sends, now - 60 ≤ e.time) :
    ∀ chat : ℤ,
      (canSendDec (recordAll RateLimiter.init sends) chat now).1 = Decision.denyGlobal ∧
      (can_send (recordAll RateLimiter.init sends) chat now).1 = false := by
  intro chat
  set s := recordAll RateLimiter.init sends with hs
  have hban : s.permanent_bans chat = false := by
    rw [hs, recordAll_permanent_bans]; rfl
  have hfl : s.flood_wait_until chat = none := by
    rw [hs, recordAll_flood_wait_until]; rfl
  have hglim : s.global_limit = 100 := by
    rw [hs, recordAll_global_limit]; rfl
  have hwsize : s.window_size = 60 := by
    rw [hs, recordAll_window_size]; rfl
  have hgc : s.global_counter = sends.map (fun e => e.time) := by
    rw [hs, recordAll_global_counter]; rfl
  have hclean : cleanList (now - s.window_size) s.global_counter = s.global_counter := by
    apply cleanList_eq_self
    intro t ht
    rw [hgc] at ht
    obtain ⟨e, he, rfl⟩ := List.mem_map.mp ht
    rw [hwsize]
    exact hwin e he
  have hcond : (clean_old_entries s now).global_counter.length ≥
      (clean_old_entries s now).global_limit := by
    show (cleanList (now - s.window_size) s.global_counter).length ≥ s.global_limit
    rw [hclean, hgc, hglim, List.length_map, hlen]
  have hdec : (canSendDec s chat now).1 = Decision.denyGlobal := by
    unfold canSendDec
    rw [hban, hfl]
    simp only [Bool.false_eq_true, if_false]
    unfold windowCheck
    simp only [ge_iff_le] at hcond ⊢
    rw [if_pos hcond]
  exact ⟨hdec, by simp [can_send, hdec, Decision.toBool]⟩

/-- Concrete run for the witness: 100 sends to distinct chats, all at
clock value 30, queried at clock value 60. -/
def hundredSends : List SendEvent := (List.range 100).map (fun i => ⟨(i : ℤ), 30, true⟩)

theorem global_gate_after_hundred_witness :
    (canSendDec (recordAll RateLimiter.init hundredSends) 5 60).1 = Decision.denyGlobal ∧
    (can_send (recordAll RateLimiter.init hundredSends) 5 60).1 = false :=
  global_gate_after_hundred hundredSends 60 (by decide) (by decide) (by decide) 5

/-!
Field lemmas for clean_old_entries and windowCheck.
-/

@[simp] theorem clean_global_counter (s : RateLimiter) (now : ℤ) :
    (clean_old_entries s now).global_counter =
      cleanList (now - s.window_size) s.global_counter := rfl

@[simp] theorem clean_chat_counters (s : RateLimiter) (now : ℤ) (c : ℤ) :
    (clean_old_entries s now).chat_counters c =
      cleanList (now - s.window_size) (s.chat_counters c) := rfl

@[simp] theorem clean_global_limit (s : RateLimiter) (now : ℤ) :
    (clean_old_entries s now).global_limit = s.global_limit := rfl

@[simp] theorem clean_chat_limit (s : RateLimiter) (now : ℤ) :
    (clean_old_entries s now).chat_limit = s.chat_limit := rfl

@[simp] theorem clean_window_size (s : RateLimiter) (now : ℤ) :
    (clean_old_entries s now).window_size = s.window_size := rfl

@[simp] theorem clean_success_rates (s : RateLimiter) (now : ℤ) :
    (clean_old_entries s now).success_rates = s.success_rates := rfl

@[simp] theorem clean_error_counts (s : RateLimiter) (now : ℤ) :
    (clean_old_entries s now).error_counts = s.error_counts := rfl

@[simp] theorem clean_permanent_bans (s : RateLimiter) (now : ℤ) :
    (clean_old_entries s now).permanent_bans = s.permanent_bans := rfl

@[simp] theorem clean_flood_wait_until (s : RateLimiter) (now : ℤ) :
    (clean_old_entries s now).flood_wait_until = s.flood_wait_until := rfl

theorem windowCheck_snd_global_counter (s : RateLimiter) (chat now : ℤ) :
    (windowCheck s chat now).2.global_counter =
      cleanList (now - s.window_size) s.global_counter := by
  simp only [windowCheck]
  split_ifs <;> rfl

theorem windowCheck_snd_chat_counters (s : RateLimiter) (chat now : ℤ) (c : ℤ) :
    (windowCheck s chat now).2.chat_counters c =
      cleanList (now - s.window_size) (s.chat_counters c) := by
  simp only [windowCheck]
  split_ifs <;> rfl

theorem windowCheck_snd_permanent_bans (s : RateLimiter) (chat now : ℤ) :
    (windowCheck s chat now).2.permanent_bans = s.permanent_bans := by
  simp only [windowCheck]
  split_ifs <;> rfl

theorem windowCheck_snd_flood_wait_until (s : RateLimiter) (chat now : ℤ) :
    (windowCheck s chat now).2.flood_wait_until = s.flood_wait_until := by
  simp only [windowCheck]
  split_ifs <;> rfl

theorem windowCheck_snd_window_size (s : RateLimiter) (chat now : ℤ) :
    (windowCheck s chat now).2.window_size = s.window_size := by
  simp only [windowCheck]
  split_ifs <;> rfl

theorem windowCheck_snd_global_limit (s : RateLimiter) (chat now : ℤ) :
    (windowCheck s chat now).2.global_limit = s.global_limit := by
  simp only [windowCheck]
  split_ifs <;> rfl

theorem windowCheck_snd_chat_limit (s : RateLimiter) (chat now : ℤ) :
    (windowCheck s chat now).2.chat_limit = s.chat_limit := by
  simp only [windowCheck]
  split_ifs <;> rfl

theorem windowCheck_snd_success_rates (s : RateLimiter) (chat now : ℤ) :
    (windowCheck s chat now).2.success_rates = s.success_rates := by
  simp only [windowCheck]
  split_ifs <;> rfl

theorem windowCheck_snd_error_counts (s : RateLimiter) (chat now : ℤ) :
    (windowCheck s chat now).2.error_counts = s.error_counts := by
  simp only [windowCheck]
  split_ifs <;> rfl

theorem cleanList_sublist (cutoff : ℤ) (l : List ℤ) : (cleanList cutoff l).Sublist l := by
  conv_rhs => rw [← List.takeWhile_append_dropWhile
    (p := fun x => decide (x < cutoff)) (l := l)]
  exact List.sublist_append_right _ _

theorem cleanList_removed (cutoff : ℤ) (l : List ℤ) (t : ℤ)
    (ht : t ∈ l) (hout : t ∉ cleanList cutoff l) : t < cutoff := by
  have hsplit := List.takeWhile_append_dropWhile
    (p := fun x => decide (x < cutoff)) (l := l)
  rw [← hsplit] at ht
  rcases List.mem_append.mp ht with h | h
  · exact of_decide_eq_true (List.mem_takeWhile_imp (p := fun x => decide (x < cutoff)) h)
  · exact absurd h hout

theorem cleanList_idem (cutoff : ℤ) (l : List ℤ) :
    cleanList cutoff (cleanList cutoff l) = cleanList cutoff l := by
  simp only [cleanList]
  exact List.dropWhile_idempotent _ _

theorem get_adaptive_limit_congr (s t : RateLimiter) (chat : ℤ)
    (h1 : t.chat_limit = s.chat_limit)
    (h2 : t.success_rates chat = s.success_rates chat)
    (h3 : t.error_counts chat = s.error_counts chat) :
    get_adaptive_limit t chat = get_adaptive_limit s chat := by
  unfold get_adaptive_limit
  rw [h1, h2, h3]

theorem windowCheck_fst_congr (s t : RateLimiter) (chat now : ℤ)
    (hgc : cleanList (now - t.window_size) t.global_counter =
      cleanList (now - s.window_size) s.global_counter)
    (hcc : cleanList (now - t.window_size) (t.chat_counters chat) =
      cleanList (now - s.window_size) (s.chat_counters chat))
    (hgl : t.global_limit = s.global_limit)
    (hlim : get_adaptive_limit (clean_old_entries t now) chat =
      get_adaptive_limit (clean_old_entries s now) chat) :
    (windowCheck t chat now).1 = (windowCheck s chat now).1 := by
  simp only [windowCheck, clean_global_counter, clean_chat_counters, clean_global_limit]
  rw [hgc, hcc, hgl, hlim]
  split_ifs <;> rfl

theorem windowCheck_stable (s : RateLimiter) (chat now : ℤ) :
    (windowCheck (windowCheck s chat now).2 chat now).1 = (windowCheck s chat now).1 := by
  apply windowCheck_fst_congr
  · rw [windowCheck_snd_window_size, windowCheck_snd_global_counter, cleanList_idem]
  · rw [windowCheck_snd_window_size, windowCheck_snd_chat_counters, cleanList_idem]
  · exact windowCheck_snd_global_limit s chat now
  · apply get_adaptive_limit_congr
    · show (windowCheck s chat now).2.chat_limit = s.chat_limit
      exact windowCheck_snd_chat_limit s chat now
    · show (windowCheck s chat now).2.success_rates chat = s.success_rates chat
      rw [windowCheck_snd_success_rates]
    · show (windowCheck s chat now).2.error_counts chat = s.error_counts chat
      rw [windowCheck_snd_error_counts]

/-- Claim C10: can_send never records a send.  The global counter and
every per-destination counter after the call form a sublist of their
previous contents, every removed entry was older than the window, the
permanent-ban set is unchanged, and an immediately repeated can_send
call at the same clock value returns the same decision. -/
theorem can_send_frame (s : RateLimiter) (chat now : ℤ) :
    ((canSendDec s chat now).2.global_counter.Sublist s.global_counter) ∧
    (∀ t ∈ s.global_counter,
      t ∉ (canSendDec s chat now).2.global_counter → t < now - s.window_size) ∧
    (∀ c, ((canSendDec s chat now).2.chat_counters c).Sublist (s.chat_counters c)) ∧
    (∀ c, ∀ t ∈ s.chat_counters c,
      t ∉ (canSendDec s chat now).2.chat_counters c → t < now - s.window_size) ∧
    ((canSendDec s chat now).2.permanent_bans = s.permanent_bans) ∧
    ((canSendDec (canSendDec s chat now).2 chat now).1 = (canSendDec s chat now).1) := by
  by_cases hb : s.permanent_bans chat = true
  · simp only [canSendDec, hb, if_true]
    exact ⟨List.Sublist.refl _, fun t ht hnot => absurd ht hnot,
      fun c => List.Sublist.refl _, fun c t ht hnot => absurd ht hnot, trivial,
      by simp only [canSendDec, hb, if_true]⟩
  · have hb' : s.permanent_bans chat = false := by
      simpa using hb
    rcases hf : s.flood_wait_until chat with _ | u
    · simp only [canSendDec, hb', Bool.false_eq_true, if_false, hf]
      refine ⟨?_, ?_, ?_, ?_, ?_, ?_⟩
      · rw [windowCheck_snd_global_counter]
        exact cleanList_sublist _ _
      · intro t ht hnot
        rw [windowCheck_snd_global_counter] at hnot
        exact cleanList_removed _ _ _ ht hnot
      · intro c
        rw [windowCheck_snd_chat_counters]
        exact cleanList_sublist _ _
      · intro c t ht hnot
        rw [windowCheck_snd_chat_counters] at hnot
        exact cleanList_removed _ _ _ ht hnot
      · exact windowCheck_snd_permanent_bans s chat now
      · have hb2 : (windowCheck s chat now).2.permanent_bans chat = false := by
          rw [windowCheck_snd_permanent_bans]; exact hb'
        have hf2 : (windowCheck s chat now).2.flood_wait_until chat = none := by
          rw [windowCheck_snd_flood_wait_until]; exact hf
        simp only [canSendDec, hb2, Bool.false_eq_true, if_false, hf2]
        exact windowCheck_stable s chat now
    · by_cases hu : now < u
      · simp only [canSendDec, hb', Bool.false_eq_true, if_false, hf, hu, if_true]
        exact ⟨List.Sublist.refl _, fun t ht hnot => absurd ht hnot,
          fun c => List.Sublist.refl _, fun c t ht hnot => absurd ht hnot, trivial,
          by simp only [canSendDec, hb', Bool.false_eq_true, if_false, hf, hu, if_true]⟩
      · simp only [canSendDec, hb', Bool.false_eq_true, if_false, hf, hu]
        refine ⟨?_, ?_, ?_, ?_, ?_, ?_⟩
        · rw [windowCheck_snd_global_counter]
          exact cleanList_sublist _ _
        · intro t ht hnot
          rw [windowCheck_snd_global_counter] at hnot
          exact cleanList_removed _ _ _ ht hnot
        · intro c
          rw [windowCheck_snd_chat_counters]
          exact cleanList_sublist _ _
        · intro c t ht hnot
          rw [windowCheck_snd_chat_counters] at hnot
          exact cleanList_removed _ _ _ ht hnot
        · exact windowCheck_snd_permanent_bans _ chat now
        · have hb2 : (windowCheck
              { s with flood_wait_until := fun c => if c = chat then none else s.flood_wait_until c }
              chat now).2.permanent_bans chat = false := by
            rw [windowCheck_snd_permanent_bans]; exact hb'
          have hf2 : (windowCheck
              { s with flood_wait_until := fun c => if c = chat then none else s.flood_wait_until c }
              chat now).2.flood_wait_until chat = none := by
            rw [windowCheck_snd_flood_wait_until]; simp
          simp only [canSendDec, hb2, Bool.false_eq_true, if_false, hf2]
          exact windowCheck_stable _ chat now

/-- The window tail of can_send allows exactly when both the cleaned
global window and the cleaned destination window are strictly below
their limits. -/
theorem windowCheck_fst_allow_iff (s : RateLimiter) (chat now : ℤ) :
    (windowCheck s chat now).1 = Decision.allow ↔
      ((cleanList (now - s.window_size) s.global_counter).length < s.global_limit ∧
       (cleanList (now - s.window_size) (s.chat_counters chat)).length <
         get_adaptive_limit (clean_old_entries s now) chat) := by
  simp only [windowCheck, clean_global_counter, clean_chat_counters, clean_global_limit]
  split_ifs with h1 h2
  · exact iff_of_false (by simp) (by rintro ⟨hA, hB⟩; omega)
  · exact iff_of_false (by simp) (by rintro ⟨hA, hB⟩; omega)
  · exact iff_of_true rfl ⟨by omega, by omega⟩

/-- Claim C2 (amended): after set_flood_wait installs a cooldown of wait
seconds at clock t0, every can_send call for that destination strictly
before t0 + wait is denied; a call at or after t0 + wait (destination not
permanently banned) clears the flood-wait entry, but its verdict is then
the ordinary window decision, allowed exactly when both the cleaned
global window and the cleaned destination window are below their limits,
not allowed unconditionally. -/
theorem flood_wait_gate (s : RateLimiter) (X wait t0 now : ℤ) :
    (now < t0 + wait → (can_send (set_flood_wait s X wait t0) X now).1 = false) ∧
    (s.permanent_bans X = false → t0 + wait ≤ now →
      (canSendDec (set_flood_wait s X wait t0) X now).2.flood_wait_until X = none ∧
      ((canSendDec (set_flood_wait s X wait t0) X now).1 = Decision.allow ↔
        ((cleanList (now - s.window_size) s.global_counter).length < s.global_limit ∧
         (cleanList (now - s.window_size) (s.chat_counters X)).length <
           get_adaptive_limit (clean_old_entries s now) X))) := by
  have hfl : (set_flood_wait s X wait t0).flood_wait_until X = some (t0 + wait) := by
    simp [set_flood_wait]
  constructor
  · intro hlt
    by_cases hb : s.permanent_bans X = true
    · have hbb : (set_flood_wait s X wait t0).permanent_bans X = true := hb
      simp [can_send, canSendDec, hbb, Decision.toBool]
    · have hbb : (set_flood_wait s X wait t0).permanent_bans X = false := by simpa using hb
      simp [can_send, canSendDec, hbb, hfl, hlt, Decision.toBool]
  · intro hb hle
    have hbb : (set_flood_wait s X wait t0).permanent_bans X = false := hb
    have hnlt : ¬ now < t0 + wait := not_lt.mpr hle
    simp only [canSendDec, hbb, Bool.false_eq_true, if_false, hfl, hnlt]
    constructor
    · rw [windowCheck_snd_flood_wait_until]
      simp
    · rw [windowCheck_fst_allow_iff]
      exact Iff.rfl

/-- Concrete run refuting the unconditional-allow reading of the claim:
thirty successful sends to chat 7 at clock 30, a five second flood wait
installed at clock 40, queried at clock 45 which is exactly the expiry. -/
def thirtySends : List SendEvent := List.replicate 30 ⟨7, 30, true⟩

/-- Claim C2 counterexample: at the expiry instant the flood wait is
over, yet can_send still returns False because the destination window
holds 30 recent sends, refuting allowed immediately independent of the
window counts. -/
theorem flood_expiry_still_window_limited :
    (40 + 5 : ℤ) ≤ 45 ∧
    (can_send (set_flood_wait (recordAll RateLimiter.init thirtySends) 7 5 40) 7 45).1
      = false := by
  constructor
  · decide
  · decide

theorem flood_wait_gate_witness :
    ((can_send (set_flood_wait RateLimiter.init 7 5 40) 7 44).1 = false) ∧
    ((canSendDec (set_flood_wait RateLimiter.init 7 5 40) 7 45).2.flood_wait_until 7 = none ∧
      ((canSendDec (set_flood_wait RateLimiter.init 7 5 40) 7 45).1 = Decision.allow ↔
        ((cleanList (45 - RateLimiter.init.window_size)
            RateLimiter.init.global_counter).length < RateLimiter.init.global_limit ∧
         (cleanList (45 - RateLimiter.init.window_size)
            (RateLimiter.init.chat_counters 7)).length <
           get_adaptive_limit (clean_old_entries RateLimiter.init 45) 7))) :=
  ⟨(flood_wait_gate RateLimiter.init 7 5 40 44).1 (by decide),
   (flood_wait_gate RateLimiter.init 7 5 40 45).2 (by decide) (by decide)⟩

/-- Claim C3: with the default base of 30 the adaptive limit is 30 when
the success rate is at least 0.8 and the error count at most 5, 18 (60
percent of base) in the middle tier, 9 (30 percent of base) once the
rate drops below 0.5 or the errors exceed 10, and for a fixed error
history it is monotonically non-increasing as the success rate
decreases across the breakpoints. -/
theorem adaptive_limit_tiers (s t : RateLimiter) (chat : ℤ)
    (hs : s.chat_limit = 30) (ht : t.chat_limit = 30)
    (herr : t.error_counts chat = s.error_counts chat) :
    ((mkRat 4 5 ≤ (s.success_rates chat).getD 1 ∧ s.error_counts chat ≤ 5) →
      get_adaptive_limit s chat = 30) ∧
    ((((s.success_rates chat).getD 1 < mkRat 4 5 ∨ 5 < s.error_counts chat) ∧
      mkRat 1 2 ≤ (s.success_rates chat).getD 1 ∧ s.error_counts chat ≤ 10) →
      get_adaptive_limit s chat = 18) ∧
    (((s.success_rates chat).getD 1 < mkRat 1 2 ∨ 10 < s.error_counts chat) →
      get_adaptive_limit s chat = 9) ∧
    ((t.success_rates chat).getD 1 ≤ (s.success_rates chat).getD 1 →
      get_adaptive_limit t chat ≤ get_adaptive_limit s chat) := by
  simp only [get_adaptive_limit]
  rw [hs, ht, herr]
  refine ⟨?_, ?_, ?_, ?_⟩
  · rintro ⟨h1, h2⟩
    have hn1 : ¬((s.success_rates chat).getD 1 < mkRat 1 2 ∨ 10 < s.error_counts chat) := by
      push_neg
      exact ⟨le_trans (by decide) h1, by omega⟩
    have hn2 : ¬((s.success_rates chat).getD 1 < mkRat 4 5 ∨ 5 < s.error_counts chat) := by
      push_neg
      exact ⟨h1, h2⟩
    rw [if_neg hn1, if_neg hn2]
  · rintro ⟨h1, h2, h3⟩
    have hn1 : ¬((s.success_rates chat).getD 1 < mkRat 1 2 ∨ 10 < s.error_counts chat) := by
      push_neg
      exact ⟨h2, h3⟩
    rw [if_neg hn1, if_pos h1]
    decide
  · intro h1
    rw [if_pos h1]
    decide
  · intro hle
    by_cases c1 : (s.success_rates chat).getD 1 < mkRat 1 2 ∨ 10 < s.error_counts chat
    · have c1t : (t.success_rates chat).getD 1 < mkRat 1 2 ∨ 10 < s.error_counts chat :=
        c1.imp (fun h => lt_of_le_of_lt hle h) id
      rw [if_pos c1, if_pos c1t]
    · by_cases c2 : (s.success_rates chat).getD 1 < mkRat 4 5 ∨ 5 < s.error_counts chat
      · rw [if_neg c1, if_pos c2]
        by_cases c1t : (t.success_rates chat).getD 1 < mkRat 1 2 ∨ 10 < s.error_counts chat
        · rw [if_pos c1t]
          decide
        · have c2t : (t.success_rates chat).getD 1 < mkRat 4 5 ∨ 5 < s.error_counts chat :=
            c2.imp (fun h => lt_of_le_of_lt hle h) id
          rw [if_neg c1t, if_pos c2t]
      · rw [if_neg c1, if_neg c2]
        by_cases c1t : (t.success_rates chat).getD 1 < mkRat 1 2 ∨ 10 < s.error_counts chat
        · rw [if_pos c1t]
          decide
        · rw [if_neg c1t]
          by_cases c2t : (t.success_rates chat).getD 1 < mkRat 4 5 ∨ 5 < s.error_counts chat
          · rw [if_pos c2t]
            decide
          · rw [if_neg c2t]

/-- A destination whose smoothed success rate has fallen to one quarter,
with a clean error history. -/
def lowRateState : RateLimiter :=
  { RateLimiter.init with success_rates := fun c => if c = 0 then some (mkRat 1 4) else none }

theorem adaptive_limit_tiers_witness :
    ((mkRat 4 5 ≤ (RateLimiter.init.success_rates 0).getD 1 ∧
        RateLimiter.init.error_counts 0 ≤ 5) ∧
      get_adaptive_limit RateLimiter.init 0 = 30) ∧
    (((lowRateState.success_rates 0).getD 1 < mkRat 1 2 ∨ 10 < lowRateState.error_counts 0) ∧
      get_adaptive_limit lowRateState 0 = 9) ∧
    ((lowRateState.success_rates 0).getD 1 ≤ (RateLimiter.init.success_rates 0).getD 1 ∧
      get_adaptive_limit lowRateState 0 ≤ get_adaptive_limit RateLimiter.init 0) :=
  ⟨⟨by decide,
    (adaptive_limit_tiers RateLimiter.init lowRateState 0 rfl rfl rfl).1 (by decide)⟩,
   ⟨by decide,
    (adaptive_limit_tiers lowRateState RateLimiter.init 0 rfl rfl rfl).2.2.1 (by decide)⟩,
   ⟨by decide,
    (adaptive_limit_tiers RateLimiter.init lowRateState 0 rfl rfl rfl).2.2.2 (by decide)⟩⟩

/-- Every row returned by get_tasks_by_source has its active flag set. -/
theorem get_tasks_by_source_active (store : List Rule) (src : ℤ) :
    ∀ r ∈ get_tasks_by_source store src, r.is_active = true := by
  intro r hr
  have h := (List.mem_filter.mp hr).2
  simp only [decide_eq_true_eq] at h
  exact h.2

theorem enqueue_tasks_length (msg now : ℤ) (tasks : List Rule) :
    ∀ acc : List DeliveryItem × ℕ, acc.1.length ≤ 500 →
      (enqueue_tasks msg now tasks acc).1.length ≤ 500 := by
  induction tasks with
  | nil => intro acc h; exact h
  | cons task rest ih =>
      intro acc h
      show (enqueue_tasks msg now rest _).1.length ≤ 500
      apply ih
      split_ifs with h1 h2
      · simp only [List.length_append, List.length_singleton]
        omega
      · exact h
      · exact h

theorem enqueue_tasks_full (msg now : ℤ) (tasks : List Rule)
    (hact : ∀ r ∈ tasks, r.is_active = true) :
    ∀ acc : List DeliveryItem × ℕ, 500 ≤ acc.1.length →
      enqueue_tasks msg now tasks acc = (acc.1, acc.2 + tasks.length) := by
  induction tasks with
  | nil => intro acc h; exact rfl
  | cons task rest ih =>
      intro acc h
      have ha : task.is_active = true := hact task (by simp)
      have hn : ¬ acc.1.length < 500 := not_lt.mpr h
      show enqueue_tasks msg now rest _ = _
      rw [if_pos ha, if_neg hn]
      rw [ih (fun r hr => hact r (by simp [hr])) (acc.1, acc.2 + 1) h]
      simp only [List.length_cons]
      exact congrArg _ (by omega)

/-- Claim C4: the forwarding queue never exceeds its capacity of 500;
when the ingestion handler finds the queue full the incoming item is
dropped without being enqueued and one operator notification is emitted
per matching active rule, and the handler returns without waiting for
queue space. -/
theorem queue_capacity_and_overflow (running : Bool) (q : List DeliveryItem)
    (store : List Rule) (src msg now : ℤ) (hcap : q.length ≤ 500) :
    (handle_incoming_message running q store src msg now).1.length ≤ 500 ∧
    (q.length = 500 →
      (handle_incoming_message running q store src msg now).1 = q ∧
      (handle_incoming_message running q store src msg now).2 =
        if running then (get_tasks_by_source store src).length else 0) := by
  cases running with
  | false =>
      refine ⟨?_, fun hfull => ⟨rfl, by simp [handle_incoming_message]⟩⟩
      exact hcap
  | true =>
      have hrun : handle_incoming_message true q store src msg now =
          enqueue_tasks msg now (get_tasks_by_source store src) (q, 0) := rfl
      constructor
      · rw [hrun]
        exact enqueue_tasks_length msg now _ (q, 0) hcap
      · intro hfull
        have h := enqueue_tasks_full msg now (get_tasks_by_source store src)
          (get_tasks_by_source_active store src) (q, 0) (by simp [hfull])
        rw [hrun, h]
        exact ⟨rfl, by simp⟩

/-- Concrete full queue for the witness: 500 copies of one item. -/
def fullQueue : List DeliveryItem :=
  List.replicate 500 ⟨1, ⟨1, 10, 20, true⟩, 0⟩

theorem queue_capacity_and_overflow_witness :
    (handle_incoming_message true fullQueue [⟨1, 10, 20, true⟩] 10 99 7).1.length ≤ 500 ∧
    (fullQueue.length = 500 →
      (handle_incoming_message true fullQueue [⟨1, 10, 20, true⟩] 10 99 7).1 = fullQueue ∧
      (handle_incoming_message true fullQueue [⟨1, 10, 20, true⟩] 10 99 7).2 =
        if true then (get_tasks_by_source [⟨1, 10, 20, true⟩] 10).length else 0) :=
  queue_capacity_and_overflow true fullQueue [⟨1, 10, 20, true⟩] 10 99 7 (by decide)

/-- Claim C5: when can_send denies the destination of a dequeued item,
the worker does not drop the item and does not attempt the send: the
same item goes back to the end of the queue after a one second delay,
and the store, the counters and the deactivation log are untouched; the
rate limiter carries only the bookkeeping done by can_send itself. -/
theorem deny_requeues (w : WorkerState) (item : DeliveryItem) (rest : List DeliveryItem)
    (outcomes : ℕ → SendOutcome) (now : ℤ)
    (hq : w.queue = item :: rest)
    (hdeny : (can_send w.rl item.rule.destination_id now).1 = false) :
    (process_message_queue_step w outcomes now).1.queue = rest ++ [item] ∧
    (process_message_queue_step w outcomes now).2 = StepAction.requeued item 1 ∧
    (process_message_queue_step w outcomes now).1.store = w.store ∧
    (process_message_queue_step w outcomes now).1.errors = w.errors ∧
    (process_message_queue_step w outcomes now).1.messages_forwarded = w.messages_forwarded ∧
    (process_message_queue_step w outcomes now).1.deacts = w.deacts ∧
    (process_message_queue_step w outcomes now).1.rl =
      (can_send w.rl item.rule.destination_id now).2 := by
  cases w with
  | mk rl queue store mf er no de =>
      simp only at hq
      subst hq
      simp [process_message_queue_step, hdeny]

/-- Concrete deny scenario for the witness: destination 9 is inside a
flood wait, one item for it sits in the queue. -/
def denyRule : Rule := ⟨1, 10, 9, true⟩

def denyItem : DeliveryItem := ⟨5, denyRule, 0⟩

def denyWorker : WorkerState :=
  ⟨set_flood_wait RateLimiter.init 9 100 0, [denyItem], [denyRule], 0, 0, 0, []⟩

theorem deny_requeues_witness :
    (process_message_queue_step denyWorker (fun _ => SendOutcome.ok) 10).1.queue
      = [] ++ [denyItem] ∧
    (process_message_queue_step denyWorker (fun _ => SendOutcome.ok) 10).2
      = StepAction.requeued denyItem 1 ∧
    (process_message_queue_step denyWorker (fun _ => SendOutcome.ok) 10).1.store
      = denyWorker.store ∧
    (process_message_queue_step denyWorker (fun _ => SendOutcome.ok) 10).1.errors
      = denyWorker.errors ∧
    (process_message_queue_step denyWorker (fun _ => SendOutcome.ok) 10).1.messages_forwarded
      = denyWorker.messages_forwarded ∧
    (process_message_queue_step denyWorker (fun _ => SendOutcome.ok) 10).1.deacts
      = denyWorker.deacts ∧
    (process_message_queue_step denyWorker (fun _ => SendOutcome.ok) 10).1.rl
      = (can_send denyWorker.rl denyItem.rule.destination_id 10).2 :=
  deny_requeues denyWorker denyItem [] (fun _ => SendOutcome.ok) 10 rfl (by decide)

/-- Claim C6: when every attempt for a delivery item fails with a flood
error, the pipeline installs the error-provided flood wait each time,
sleeps that duration, retries with exponential backoff delays of 2, 4
and 8 seconds between attempts, and stops after the budget of 3 retries
(4 attempts in total); the exhausted budget propagates as an error, the
worker counts it as a failure and the item is not retried further. -/
theorem flood_retry_exhaustion (w : WorkerState) (item : DeliveryItem)
    (rest : List DeliveryItem) (outcomes : ℕ → SendOutcome) (ws : ℕ → ℤ) (now : ℤ)
    (hq : w.queue = item :: rest)
    (hallow : (can_send w.rl item.rule.destination_id now).1 = true)
    (hout : ∀ k < 4, outcomes k = SendOutcome.floodWait (ws k)) :
    (forward_message (can_send w.rl item.rule.destination_id now).2 w.store item.rule
        outcomes now).attempts = 4 ∧
    (forward_message (can_send w.rl item.rule.destination_id now).2 w.store item.rule
        outcomes now).result = Except.error () ∧
    (forward_message (can_send w.rl item.rule.destination_id now).2 w.store item.rule
        outcomes now).sleeps = [ws 0, 2, ws 1, 4, ws 2, 8, ws 3] ∧
    (forward_message (can_send w.rl item.rule.destination_id now).2 w.store item.rule
        outcomes now).rl.flood_wait_until item.rule.destination_id = some (now + ws 3) ∧
    (forward_message (can_send w.rl item.rule.destination_id now).2 w.store item.rule
        outcomes now).rl.total_flood_waits =
      (can_send w.rl item.rule.destination_id now).2.total_flood_waits + 4 ∧
    (forward_message (can_send w.rl item.rule.destination_id now).2 w.store item.rule
        outcomes now).store = w.store ∧
    (process_message_queue_step w outcomes now).1.errors = w.errors + 1 ∧
    (process_message_queue_step w outcomes now).1.queue = rest ∧
    (process_message_queue_step w outcomes now).2 = StepAction.failed item.rule.id := by
  have h0 := hout 0 (by omega)
  have h1 := hout 1 (by omega)
  have h2 := hout 2 (by omega)
  have h3 := hout 3 (by omega)
  have hfm : forward_message (can_send w.rl item.rule.destination_id now).2 w.store
      item.rule outcomes now =
      { result := Except.error ()
        rl := set_flood_wait (set_flood_wait (set_flood_wait (set_flood_wait
          (can_send w.rl item.rule.destination_id now).2
          item.rule.destination_id (ws 0) now)
          item.rule.destination_id (ws 1) now)
          item.rule.destination_id (ws 2) now)
          item.rule.destination_id (ws 3) now
        store := w.store
        notices := 0
        sleeps := [ws 0, 2, ws 1, 4, ws 2, 8, ws 3]
        deacts := []
        attempts := 4 } := by
    simp only [forward_message, retryLoop, h0, h1, h2, h3, forward_attempt]
    norm_num
  refine ⟨by rw [hfm], by rw [hfm], by rw [hfm], ?_, ?_, by rw [hfm], ?_, ?_, ?_⟩
  · rw [hfm]
    simp [set_flood_wait]
  · rw [hfm]
    simp [set_flood_wait]
  · cases w with
    | mk rl queue store mf er no de =>
        simp only at hq hallow hfm
        subst hq
        simp [process_message_queue_step, hallow, hfm]
  · cases w with
    | mk rl queue store mf er no de =>
        simp only at hq hallow hfm
        subst hq
        simp [process_message_queue_step, hallow, hfm]
  · cases w with
    | mk rl queue store mf er no de =>
        simp only at hq hallow hfm
        subst hq
        simp [process_message_queue_step, hallow, hfm]

/-- Flood outcomes for the witness: attempt k fails with wait k + 1. -/
def floodOutcomes : ℕ → SendOutcome := fun k => SendOutcome.floodWait ((k : ℤ) + 1)

/-- The wait durations carried by floodOutcomes. -/
def floodWs : ℕ → ℤ := fun k => (k : ℤ) + 1

def floodRule : Rule := ⟨2, 11, 20, true⟩

def floodItem : DeliveryItem := ⟨6, floodRule, 0⟩

def floodWorker : WorkerState := ⟨RateLimiter.init, [floodItem], [floodRule], 0, 0, 0, []⟩

theorem flood_retry_exhaustion_witness :
    (forward_message (can_send floodWorker.rl floodItem.rule.destination_id 0).2
        floodWorker.store floodItem.rule floodOutcomes 0).attempts = 4 ∧
    (forward_message (can_send floodWorker.rl floodItem.rule.destination_id 0).2
        floodWorker.store floodItem.rule floodOutcomes 0).result = Except.error () ∧
    (forward_message (can_send floodWorker.rl floodItem.rule.destination_id 0).2
        floodWorker.store floodItem.rule floodOutcomes 0).sleeps =
      [floodWs 0, 2, floodWs 1, 4, floodWs 2, 8, floodWs 3] ∧
    (forward_message (can_send floodWorker.rl floodItem.rule.destination_id 0).2
        floodWorker.store floodItem.rule floodOutcomes 0).rl.flood_wait_until
        floodItem.rule.destination_id = some (0 + floodWs 3) ∧
    (forward_message (can_send floodWorker.rl floodItem.rule.destination_id 0).2
        floodWorker.store floodItem.rule floodOutcomes 0).rl.total_flood_waits =
      (can_send floodWorker.rl floodItem.rule.destination_id 0).2.total_flood_waits + 4 ∧
    (forward_message (can_send floodWorker.rl floodItem.rule.destination_id 0).2
        floodWorker.store floodItem.rule floodOutcomes 0).store = floodWorker.store ∧
    (process_message_queue_step floodWorker floodOutcomes 0).1.errors
      = floodWorker.errors + 1 ∧
    (process_message_queue_step floodWorker floodOutcomes 0).1.queue = [] ∧
    (process_message_queue_step floodWorker floodOutcomes 0).2
      = StepAction.failed floodItem.rule.id :=
  flood_retry_exhaustion floodWorker floodItem [] floodOutcomes floodWs 0 rfl
    (by decide) (fun k hk => rfl)

/-- Deactivating a rule id in the store leaves every row with that id
inactive. -/
theorem update_task_status_inactive (store : List Rule) (tid : ℤ) :
    ∀ r ∈ update_task_status store tid false, r.id = tid → r.is_active = false := by
  intro r hr hid
  rcases List.mem_map.mp hr with ⟨r0, hr0, rfl⟩
  by_cases h : r0.id = tid
  · simp [h]
  · simp only [if_neg h] at hid ⊢
    exact absurd hid h

/-- Every item the enqueue loop adds carries an active rule snapshot. -/
theorem enqueue_tasks_mem (msg now : ℤ) (tasks : List Rule)
    (hact : ∀ r ∈ tasks, r.is_active = true) :
    ∀ (acc : List DeliveryItem × ℕ) (di : DeliveryItem),
      di ∈ (enqueue_tasks msg now tasks acc).1 → di ∈ acc.1 ∨ di.rule.is_active = true := by
  induction tasks with
  | nil => intro acc di h; exact Or.inl h
  | cons task rest ih =>
      intro acc di h
      have ha : task.is_active = true := hact task (by simp)
      have hrest : ∀ r ∈ rest, r.is_active = true := fun r hr => hact r (by simp [hr])
      have step := ih hrest _ di h
      rcases step with hin | hact2
      · rw [if_pos ha] at hin
        by_cases hlen : acc.1.length < 500
        · rw [if_pos hlen] at hin
          rcases List.mem_append.mp hin with h1 | h2
          · exact Or.inl h1
          · right
            have : di = ⟨msg, task, now⟩ := by simpa using h2
            rw [this]
            exact ha
        · rw [if_neg hlen] at hin
          exact Or.inl hin
      · exact Or.inr hact2

/-- Items produced by the ingestion handler either were already queued
or carry an active rule: a rule inactive in the store is never enqueued. -/
theorem handle_incoming_only_active (running : Bool) (q : List DeliveryItem)
    (store2 : List Rule) (src msg t : ℤ) :
    ∀ di ∈ (handle_incoming_message running q store2 src msg t).1,
      di ∈ q ∨ di.rule.is_active = true := by
  intro di h
  cases running with
  | false => exact Or.inl h
  | true =>
      exact enqueue_tasks_mem msg t (get_tasks_by_source store2 src)
        (get_tasks_by_source_active store2 src) (q, 0) di h

/-- Claim C7 (amended): a delivery attempt that fails with a permanent
permission error deactivates the rule in the task store on that attempt,
emits one operator notification, returns failure without any retry (one
attempt only), and the worker drops the item; the ingestion handler
never enqueues an item for a rule that is inactive in the store, but
items already sitting in the queue with an older active snapshot of the
rule may still be attempted, each such attempt deactivating the rule in
the store again. -/
theorem perm_error_single_deactivation (w : WorkerState) (item : DeliveryItem)
    (rest : List DeliveryItem) (outcomes : ℕ → SendOutcome) (now : ℤ)
    (hq : w.queue = item :: rest)
    (hallow : (can_send w.rl item.rule.destination_id now).1 = true)
    (hperm : outcomes 0 = SendOutcome.permission) :
    (process_message_queue_step w outcomes now).1.deacts = w.deacts ++ [item.rule.id] ∧
    (process_message_queue_step w outcomes now).1.notices = w.notices + 1 ∧
    (process_message_queue_step w outcomes now).1.queue = rest ∧
    (process_message_queue_step w outcomes now).1.errors = w.errors + 1 ∧
    (process_message_queue_step w outcomes now).2 = StepAction.failed item.rule.id ∧
    (∀ r ∈ (process_message_queue_step w outcomes now).1.store,
        r.id = item.rule.id → r.is_active = false) ∧
    (forward_message (can_send w.rl item.rule.destination_id now).2 w.store item.rule
        outcomes now).attempts = 1 ∧
    (∀ (running : Bool) (q : List DeliveryItem) (store2 : List Rule) (src msg t : ℤ),
      ∀ di ∈ (handle_incoming_message running q store2 src msg t).1,
        di ∈ q ∨ di.rule.is_active = true) := by
  have hfm : forward_message (can_send w.rl item.rule.destination_id now).2 w.store
      item.rule outcomes now =
      { result := Except.ok false
        rl := (can_send w.rl item.rule.destination_id now).2
        store := update_task_status w.store item.rule.id false
        notices := 1
        sleeps := []
        deacts := [item.rule.id]
        attempts := 1 } := by
    simp only [forward_message, retryLoop, hperm, forward_attempt]
    norm_num
  have hstep : (process_message_queue_step w outcomes now).1.store =
      update_task_status w.store item.rule.id false ∧
      (process_message_queue_step w outcomes now).1.deacts = w.deacts ++ [item.rule.id] ∧
      (process_message_queue_step w outcomes now).1.notices = w.notices + 1 ∧
      (process_message_queue_step w outcomes now).1.queue = rest ∧
      (process_message_queue_step w outcomes now).1.errors = w.errors + 1 ∧
      (process_message_queue_step w outcomes now).2 = StepAction.failed item.rule.id := by
    cases w with
    | mk rl queue store mf er no de =>
        simp only at hq hallow hfm
        subst hq
        simp [process_message_queue_step, hallow, hfm]
  refine ⟨hstep.2.1, hstep.2.2.1, hstep.2.2.2.1, hstep.2.2.2.2.1, hstep.2.2.2.2.2, ?_, ?_, ?_⟩
  · rw [hstep.1]
    exact update_task_status_inactive w.store item.rule.id
  · rw [hfm]
  · intro running q store2 src msg t
    exact handle_incoming_only_active running q store2 src msg t

def permRule : Rule := ⟨1, 10, 30, true⟩

def permItemA : DeliveryItem := ⟨7, permRule, 0⟩

def permItemB : DeliveryItem := ⟨8, permRule, 0⟩

def permWorker : WorkerState :=
  ⟨RateLimiter.init, [permItemA, permItemB], [permRule], 0, 0, 0, []⟩

/-- Claim C7 counterexample: with two items for the same rule already in
the queue, two successive worker iterations both hit the permission
error.  The rule is deactivated in the task store twice, not exactly
once, and the second iteration is a further delivery attempt for the
already deactivated rule without any manual re-enable in between. -/
theorem perm_error_double_deactivation :
    (process_message_queue_step
      (process_message_queue_step permWorker (fun _ => SendOutcome.permission) 0).1
      (fun _ => SendOutcome.permission) 0).1.deacts = [1, 1] ∧
    (process_message_queue_step
      (process_message_queue_step permWorker (fun _ => SendOutcome.permission) 0).1
      (fun _ => SendOutcome.permission) 0).2 = StepAction.failed 1 := by
  constructor
  · decide
  · decide

theorem perm_error_single_deactivation_witness :
    (process_message_queue_step permWorker (fun _ => SendOutcome.permission) 0).1.deacts
      = permWorker.deacts ++ [permItemA.rule.id] ∧
    (process_message_queue_step permWorker (fun _ => SendOutcome.permission) 0).1.notices
      = permWorker.notices + 1 ∧
    (process_message_queue_step permWorker (fun _ => SendOutcome.permission) 0).1.queue
      = [permItemB] ∧
    (process_message_queue_step permWorker (fun _ => SendOutcome.permission) 0).1.errors
      = permWorker.errors + 1 ∧
    (process_message_queue_step permWorker (fun _ => SendOutcome.permission) 0).2
      = StepAction.failed permItemA.rule.id ∧
    ((⟨9, permRule, 5⟩ : DeliveryItem) ∈
        (handle_incoming_message true [] [permRule] 10 9 5).1 ∧
      ((⟨9, permRule, 5⟩ : DeliveryItem) ∈ ([] : List DeliveryItem) ∨
        permRule.is_active = true)) :=
  have h := perm_error_single_deactivation permWorker permItemA [permItemB]
    (fun _ => SendOutcome.permission) 0 rfl (by decide) rfl
  ⟨h.1, h.2.1, h.2.2.1, h.2.2.2.1, h.2.2.2.2.1,
    by decide,
    h.2.2.2.2.2.2.2 true [] [permRule] 10 9 5 ⟨9, permRule, 5⟩ (by decide)⟩

/-- Claim C8 counterexample: at a warning-level memory reading of 425 MB
(above the 400 MB warning threshold, below the 450 MB critical one) the
monitor only forces a garbage-collection pass; the running flag stays
true and the ingestion handler still enqueues a new delivery, so
ingestion is not paused and new deliveries are not rejected. -/
theorem warning_does_not_pause_ingestion :
    (monitor_step 425 true).1 = MonitorAction.gcPass ∧
    (monitor_step 425 true).2 = true ∧
    (handle_incoming_message true [] [⟨1, 10, 20, true⟩] 10 99 0).1
      = [⟨99, ⟨1, 10, 20, true⟩, 0⟩] := by
  refine ⟨by decide, by decide, by decide⟩

/-- Claim C8 (amended): when the monitor observes memory at the warning
level (above 400 MB but not above 450 MB) it forces a garbage-collection
pass and nothing else: the running flag is unchanged, so ingestion is
not paused and no cool-down window exists. -/
theorem warning_gc_only (memory_usage : ℚ) (running : Bool)
    (h1 : 400 < memory_usage) (h2 : ¬ 450 < memory_usage) :
    monitor_step memory_usage running = (MonitorAction.gcPass, running) := by
  have hc : monitor_check memory_usage = MonitorAction.gcPass := by
    unfold monitor_check
    rw [if_neg h2, if_pos h1]
  unfold monitor_step
  rw [hc]

theorem warning_gc_only_witness :
    monitor_step 425 true = (MonitorAction.gcPass, true) :=
  warning_gc_only 425 true (by decide) (by decide)

theorem drainLoop_le (qsize : ℕ → ℕ) :
    ∀ (fuel w : ℕ), w ≤ 30 → drainLoop qsize w fuel ≤ 30 := by
  intro fuel
  induction fuel with
  | zero => intro w h; exact h
  | succ fuel ih =>
      intro w h
      unfold drainLoop
      split_ifs with hc
      · exact ih (w + 1) (by omega)
      · exact h

theorem drainLoop_spec (qsize : ℕ → ℕ) :
    ∀ (fuel w : ℕ), 31 ≤ fuel + w → w ≤ 30 →
      (qsize (drainLoop qsize w fuel) = 0 ∨ drainLoop qsize w fuel = 30) := by
  intro fuel
  induction fuel with
  | zero =>
      intro w h1 h2
      exact absurd h1 (by omega)
  | succ fuel ih =>
      intro w h1 h2
      unfold drainLoop
      split_ifs with hc
      · exact ih (w + 1) (by omega) (by omega)
      · rcases not_and_or.mp hc with h | h
        · left
          have hq : qsize w = 0 := by omega
          exact hq
        · right
          omega

/-- Claim C9: once a memory reading crosses the critical 450 MB
threshold the monitor triggers the graceful restart: the running flag is
cleared so ingestion rejects every new item untouched, the drain wait
lasts at most 30 seconds and ends either with an observed empty queue or
at the full 30 second timeout, and the shutdown sequence then cancels
the workers, closes the store connections and terminates the process
regardless of remaining queue contents. -/
theorem critical_restart (memory_usage : ℚ) (running : Bool) (qsize : ℕ → ℕ)
    (h : 450 < memory_usage) :
    monitor_step memory_usage running = (MonitorAction.restartTriggered, false) ∧
    (graceful_restart qsize).running = false ∧
    (graceful_restart qsize).waited ≤ 30 ∧
    (qsize (graceful_restart qsize).waited = 0 ∨ (graceful_restart qsize).waited = 30) ∧
    (graceful_restart qsize).events =
      [ShutdownEvent.cancelWorkers, ShutdownEvent.closeDb,
        ShutdownEvent.stopClients, ShutdownEvent.exitProcess] ∧
    (∀ (q : List DeliveryItem) (store : List Rule) (src msg t : ℤ),
      handle_incoming_message false q store src msg t = (q, 0)) := by
  have hc : monitor_check memory_usage = MonitorAction.restartTriggered := by
    unfold monitor_check
    rw [if_pos h]
  refine ⟨?_, rfl, ?_, ?_, rfl, ?_⟩
  · unfold monitor_step
    rw [hc]
  · exact drainLoop_le qsize 31 0 (by omega)
  · exact drainLoop_spec qsize 31 0 (by omega) (by omega)
  · intro q store src msg t
    rfl

theorem critical_restart_witness :
    monitor_step 500 true = (MonitorAction.restartTriggered, false) ∧
    (graceful_restart (fun _ => 0)).running = false ∧
    (graceful_restart (fun _ => 0)).waited ≤ 30 ∧
    ((fun _ => 0 : ℕ → ℕ) (graceful_restart (fun _ => 0)).waited = 0 ∨
      (graceful_restart (fun _ => 0)).waited = 30) ∧
    (graceful_restart (fun _ => 0)).events =
      [ShutdownEvent.cancelWorkers, ShutdownEvent.closeDb,
        ShutdownEvent.stopClients, ShutdownEvent.exitProcess] ∧
    handle_incoming_message false [] [] 0 0 0 = ([], 0) :=
  have h := critical_restart 500 true (fun _ => 0) (by decide)
  ⟨h.1, h.2.1, h.2.2.1, h.2.2.2.1, h.2.2.2.2.1, h.2.2.2.2.2 [] [] 0 0 0⟩

/-- Concrete state for exercising the frame property: one recorded send
at clock 0, queried at clock 100 so the entry has aged out. -/
def frameState : RateLimiter := recordAll RateLimiter.init [⟨3, 0, true⟩]

theorem can_send_frame_witness :
    ((canSendDec frameState 3 100).2.global_counter.Sublist frameState.global_counter) ∧
    ((canSendDec frameState 3 100).2.permanent_bans = frameState.permanent_bans) ∧
    ((canSendDec (canSendDec frameState 3 100).2 3 100).1 =
      (canSendDec frameState 3 100).1) ∧
    ((0 : ℤ) < 100 - frameState.window_size) :=
  have h := can_send_frame frameState 3 100
  ⟨h.1, h.2.2.2.2.1, h.2.2.2.2.2, h.2.1 0 (by decide) (by decide)⟩

end Tuserbot
